import Mathlib

/-!
Verification of the balance-machine OCR desktop application
(`main_desktop_app.py`, `app/utils/qr_utils.py`, `app/services/ocr_service.py`,
`app/services/camera_service.py`).

The Python source is shallowly embedded: pure fragments become Lean
functions, the stateful capture cycle becomes explicit state passing over a
`SequencerState`, external effects (printer transport, database, scan
dialog, OCR engine) become explicit environment records describing their
outcomes.  Floats are modelled as rationals; Python's numeric rendering
(`f"{x:.2f}"`) is kept abstract as a formatting parameter shared by every
call site, exactly as the single float value is shared in the source.
-/

/-! ### Python string helpers used by `qr_utils.py` -/

/-- Python `str.strip()` on a character list: drop leading and trailing
whitespace. -/
def pyStrip (l : List Char) : List Char :=
  ((l.dropWhile Char.isWhitespace).reverse.dropWhile Char.isWhitespace).reverse

/-- Python `str.upper()` on a character list. -/
def pyUpper (l : List Char) : List Char :=
  l.map Char.toUpper

/-- Python `a or b` for strings: `b` when `a` is empty (falsy). -/
def pyOrStr (a b : String) : String :=
  if a = "" then b else a

/-- Python `str(n).zfill(5)` for a natural number. -/
def zfill5 (n : Nat) : String :=
  let s := toString n
  ⟨List.replicate (5 - s.length) '0' ++ s.data⟩

/-! ### SerialSequencer (`qr_utils.py`) -/

/-- The persisted serial state `serial_state.json`:
`{"month": "MMYY", "serial": n, "last_part": code}`. -/
structure SequencerState where
  month : String
  serial : Nat
  last_part : String
deriving DecidableEq, Repr

/-- Possible conditions of the on-disk state file as seen by `_load_state`. -/
inductive StateFile where
  | missing
  | unreadable
  | good (s : SequencerState)
deriving DecidableEq, Repr

/-- `_load_state`: a missing or unreadable file falls back to a fresh state
with the current month, serial `0` and last part `"X"`. -/
def load_state (f : StateFile) (month_now : String) : SequencerState :=
  match f with
  | .missing => ⟨month_now, 0, "X"⟩
  | .unreadable => ⟨month_now, 0, "X"⟩
  | .good s => s

/-- `get_current_serial_and_part(current_part)`: peek the serial (zero-padded
to five digits) and the effective part code, without mutating state.
`month_now` is `datetime.now().strftime("%m%y")`. -/
def get_current_serial_and_part (state : SequencerState) (month_now : String)
    (current_part : Option String) : String × String :=
  let part_clean : String := ⟨pyUpper (pyStrip (current_part.getD "").data)⟩
  let part_clean := if part_clean = "" then pyOrStr state.last_part "X" else part_clean
  let serial := if state.month ≠ month_now then 1 else state.serial
  (zfill5 serial, part_clean)

/-- `increment_serial(part)`: commit the serial, writing
`{month_now, new_serial, part_clean}` back to the state file. -/
def increment_serial (state : SequencerState) (month_now : String)
    (part : Option String) : SequencerState :=
  let part_clean : String := ⟨pyUpper (pyStrip (pyOrStr (part.getD "") state.last_part).data)⟩
  let new_serial := if state.month ≠ month_now then 1 else state.serial + 1
  ⟨month_now, new_serial, part_clean⟩

/-- C2: within the stored month, peeking returns the stored counter
zero-padded to five digits and committing stores the counter plus one; in a
different month, peeking returns "00001" and committing stores 1, regardless
of the stored counter. -/
theorem serial_month_rollover (st : SequencerState) (m : String) (p : Option String) :
    (st.month = m →
      (get_current_serial_and_part st m p).1 = zfill5 st.serial ∧
      (increment_serial st m p).serial = st.serial + 1) ∧
    (st.month ≠ m →
      (get_current_serial_and_part st m p).1 = "00001" ∧
      (increment_serial st m p).serial = 1) := by
  constructor
  · intro h
    simp [get_current_serial_and_part, increment_serial, h]
  · intro h
    simp [get_current_serial_and_part, increment_serial, h]
    decide

/-- C2 witness: with stored month "0125" and stored serial 37 in current
month "0225", the peeked serial is "00001" and a commit stores 1. -/
theorem serial_month_rollover_witness :
    (get_current_serial_and_part ⟨"0125", 37, "X"⟩ "0225" none).1 = "00001" ∧
    (increment_serial ⟨"0125", 37, "X"⟩ "0225" none).serial = 1 :=
  (serial_month_rollover ⟨"0125", 37, "X"⟩ "0225" none).2 (by decide)

/-- C10: a missing or unreadable state file loads as the fresh state with
the current month, counter 0 and last part "X"; the first peek in that month
yields serial "00000"; and a peek with a missing or empty part code returns
the stored last part, defaulting to "X". -/
theorem load_state_fallback (m : String) (f : StateFile)
    (h : f = .missing ∨ f = .unreadable) :
    load_state f m = ⟨m, 0, "X"⟩ ∧
    get_current_serial_and_part (load_state f m) m none = ("00000", "X") ∧
    (∀ st : SequencerState,
      (get_current_serial_and_part st m none).2 = pyOrStr st.last_part "X" ∧
      (get_current_serial_and_part st m (some "")).2 = pyOrStr st.last_part "X") := by
  have hl : load_state f m = ⟨m, 0, "X"⟩ := by
    rcases h with h | h <;> simp [load_state, h]
  refine ⟨hl, ?_, ?_⟩
  · rw [hl]
    simp [get_current_serial_and_part, pyOrStr, pyStrip, pyUpper, zfill5]
    decide
  · intro st
    constructor <;> simp [get_current_serial_and_part, pyStrip, pyUpper]

/-- C10 witness: concrete instantiation with a missing file in month
"0625". -/
theorem load_state_fallback_witness :
    load_state .missing "0625" = ⟨"0625", 0, "X"⟩ ∧
    get_current_serial_and_part (load_state .missing "0625") "0625" none = ("00000", "X") :=
  ⟨(load_state_fallback "0625" .missing (Or.inl rfl)).1,
   (load_state_fallback "0625" .missing (Or.inl rfl)).2.1⟩

/-! ### OCR text cleaning (`ocr_service.py`, `_clean_numeric_text`) -/

/-- The character class of the regex `[^0-9.-]`'s complement: characters the
cleaner keeps. -/
def allowedChar (c : Char) : Bool :=
  c.isDigit || c == '.' || c == '-'

/-- `parts[0] + '.' + ''.join(parts[1:])` for `parts = cleaned.split('.')`:
keep everything up to and including the first dot, drop every later dot. -/
def keepFirstDot : List Char → List Char
  | [] => []
  | c :: cs =>
    if c = '.' then c :: cs.filter (fun x => x != '.') else c :: keepFirstDot cs

/-- The `cleaned.count('.') > 1` branch of `_clean_numeric_text`. -/
def collapseDots (f : List Char) : List Char :=
  if 1 < f.count '.' then keepFirstDot f else f

/-- The `'-' in cleaned` branch of `_clean_numeric_text`: when the cleaned
text starts with `-`, keep that one and drop every other `-`
(`'-' + cleaned[1:].replace('-','')`); otherwise drop all of them. -/
def fixMinusSigns (d : List Char) : List Char :=
  if d.contains '-' then
    if d.head? = some '-' then '-' :: d.tail.filter (fun x => x != '-')
    else d.filter (fun x => x != '-')
  else d

/-- The full cleaning pipeline of `_clean_numeric_text` on a character
list: `re.sub(r'[^0-9.-]', '', text.strip())`, then the dot collapse, then
the minus fix. -/
def cleanList (l : List Char) : List Char :=
  fixMinusSigns (collapseDots ((pyStrip l).filter allowedChar))

/-- `OCRService._clean_numeric_text`. -/
def _clean_numeric_text (s : String) : String :=
  if s = "" then "" else ⟨cleanList s.data⟩

/-- Characters kept by the cleaner are never whitespace. -/
theorem not_ws_of_allowed {c : Char} (h : allowedChar c = true) :
    c.isWhitespace = false := by
  simp only [allowedChar, Bool.or_eq_true, beq_iff_eq] at h
  by_contra hw
  rw [Bool.not_eq_false] at hw
  simp only [Char.isWhitespace, Bool.or_eq_true, decide_eq_true_eq] at hw
  rcases h with (h | h) | h
  · rcases hw with ((h2 | h2) | h2) | h2 <;> rw [h2] at h <;> exact absurd h (by decide)
  · subst h; exact absurd hw (by decide)
  · subst h; exact absurd hw (by decide)

/-- A whitespace-free list is untouched by stripping. -/
theorem pyStrip_eq_self {l : List Char} (h : ∀ c ∈ l, c.isWhitespace = false) :
    pyStrip l = l := by
  have hd : ∀ t : List Char, (∀ c ∈ t, c.isWhitespace = false) →
      t.dropWhile Char.isWhitespace = t := by
    intro t ht
    cases t with
    | nil => rfl
    | cons a t =>
      rw [List.dropWhile_cons, if_neg]
      simp [ht a (List.mem_cons_self a t)]
  unfold pyStrip
  rw [hd l h, hd l.reverse (fun c hc => h c (List.mem_reverse.mp hc)),
    List.reverse_reverse]

/-- Every element of `keepFirstDot l` comes from `l`. -/
theorem mem_keepFirstDot {c : Char} {l : List Char} (h : c ∈ keepFirstDot l) :
    c ∈ l := by
  induction l with
  | nil => simp [keepFirstDot] at h
  | cons a t ih =>
    by_cases ha : a = '.'
    · rw [keepFirstDot, if_pos ha] at h
      rcases List.mem_cons.mp h with h | h
      · exact h ▸ List.mem_cons_self a t
      · exact List.mem_cons_of_mem a (List.mem_of_mem_filter h)
    · rw [keepFirstDot, if_neg ha] at h
      rcases List.mem_cons.mp h with h | h
      · exact h ▸ List.mem_cons_self a t
      · exact List.mem_cons_of_mem a (ih h)

/-- `keepFirstDot` leaves at most one dot. -/
theorem count_keepFirstDot_le (l : List Char) : (keepFirstDot l).count '.' ≤ 1 := by
  induction l with
  | nil => simp [keepFirstDot]
  | cons a t ih =>
    by_cases ha : a = '.'
    · rw [keepFirstDot, if_pos ha, ha]
      have hz : (t.filter (fun x => x != '.')).count '.' = 0 := by
        rw [List.count_eq_zero]
        intro hm
        have := List.of_mem_filter hm
        simp at this
      simp [List.count_cons, hz]
    · rw [keepFirstDot, if_neg ha]
      simpa [List.count_cons, ha] using ih

/-- `collapseDots` leaves at most one dot. -/
theorem count_collapseDots_le (l : List Char) : (collapseDots l).count '.' ≤ 1 := by
  unfold collapseDots
  split
  · exact count_keepFirstDot_le l
  · omega

/-- Every element of `collapseDots l` comes from `l`. -/
theorem mem_collapseDots {c : Char} {l : List Char} (h : c ∈ collapseDots l) :
    c ∈ l := by
  unfold collapseDots at h
  split at h
  · exact mem_keepFirstDot h
  · exact h

/-- Every element of `fixMinusSigns l` comes from `l` or is the `-` the list
already starts with. -/
theorem mem_fixMinusSigns {c : Char} {l : List Char} (h : c ∈ fixMinusSigns l) :
    c ∈ l := by
  unfold fixMinusSigns at h
  split at h
  · split at h
    next hh =>
      cases l with
      | nil => simp at hh
      | cons a rest =>
        simp only [List.head?_cons, Option.some.injEq] at hh
        rcases List.mem_cons.mp h with h | h
        · rw [h, ← hh]; exact List.mem_cons_self a rest
        · exact List.mem_cons_of_mem a
            (List.mem_of_mem_filter (by simpa only [List.tail_cons] using h))
    next => exact List.mem_of_mem_filter h
  · exact h

/-- `fixMinusSigns` does not increase the dot count. -/
theorem count_fixMinusSigns_le (l : List Char) :
    (fixMinusSigns l).count '.' ≤ l.count '.' := by
  unfold fixMinusSigns
  split
  · split
    next hh =>
      cases l with
      | nil => simp at hh
      | cons a rest =>
        simp only [List.head?_cons, Option.some.injEq] at hh
        subst hh
        have hf : (rest.filter (fun x => x != '-')).count '.' ≤ rest.count '.' :=
          (List.filter_sublist rest).count_le '.'
        simp only [List.tail_cons, List.count_cons]
        simp only [show (('-' : Char) == '.') = false from rfl]
        omega
    next => exact (List.filter_sublist l).count_le '.'
  · exact le_refl _

/-- After `fixMinusSigns`, no `-` survives past the head. -/
theorem tail_fixMinusSigns {c : Char} {l : List Char}
    (h : c ∈ (fixMinusSigns l).tail) : c ≠ '-' := by
  unfold fixMinusSigns at h
  split at h
  · split at h
    · simp only [List.tail_cons] at h
      simpa using List.of_mem_filter h
    · simpa using List.of_mem_filter (List.mem_of_mem_tail h)
  next hc =>
    intro hq
    subst hq
    exact hc (List.elem_eq_true_of_mem (List.mem_of_mem_tail h))

/-- The invariant satisfied by every output of the cleaner: only characters
from `[0-9.-]`, at most one dot, and `-` at most as the leading
character. -/
def CleanInv (l : List Char) : Prop :=
  (∀ c ∈ l, allowedChar c = true) ∧ l.count '.' ≤ 1 ∧ ∀ c ∈ l.tail, c ≠ '-'

/-- The cleaning pipeline establishes its invariant. -/
theorem cleanList_inv (l : List Char) : CleanInv (cleanList l) := by
  refine ⟨?_, ?_, ?_⟩
  · intro c hc
    exact List.of_mem_filter (mem_collapseDots (mem_fixMinusSigns hc))
  · exact le_trans (count_fixMinusSigns_le _) (count_collapseDots_le _)
  · intro c hc
    exact tail_fixMinusSigns hc

/-- On lists already satisfying the invariant, the cleaning pipeline is the
identity. -/
theorem cleanList_fixed {l : List Char} (h : CleanInv l) : cleanList l = l := by
  obtain ⟨hall, hdot, htail⟩ := h
  have hs : pyStrip l = l :=
    pyStrip_eq_self (fun c hc => not_ws_of_allowed (hall c hc))
  have hf : l.filter allowedChar = l := List.filter_eq_self.mpr hall
  have hcd : collapseDots l = l := by
    unfold collapseDots
    rw [if_neg]
    omega
  have hfm : fixMinusSigns l = l := by
    unfold fixMinusSigns
    split
    next hc =>
      have hmem : '-' ∈ l := List.mem_of_elem_eq_true hc
      cases l with
      | nil => simp at hmem
      | cons a rest =>
        have ha : a = '-' := by
          rcases List.mem_cons.mp hmem with h | h
          · exact h.symm
          · exact absurd rfl (htail '-' h)
        have hrest : rest.filter (fun x => x != '-') = rest := by
          refine List.filter_eq_self.mpr (fun x hx => ?_)
          simpa using htail x hx
        rw [if_pos (by rw [List.head?_cons, ha])]
        simp only [List.tail_cons, hrest, ha]
    next => rfl
  unfold cleanList
  rw [hs, hf, hcd, hfm]

/-- C7: the OCR text cleaner is idempotent:
`clean(clean(s)) == clean(s)` for every string `s`. -/
theorem clean_numeric_text_idempotent (s : String) :
    _clean_numeric_text (_clean_numeric_text s) = _clean_numeric_text s := by
  rcases eq_or_ne s "" with hs | hs
  · subst hs; rfl
  · unfold _clean_numeric_text
    rw [if_neg hs]
    rcases eq_or_ne (cleanList s.data) [] with hl | hl
    · rw [hl]; rfl
    · have hne : ¬((⟨cleanList s.data⟩ : String) = "") :=
        fun hcontra => hl (congrArg String.data hcontra)
      rw [if_neg hne]
      exact congrArg String.mk (cleanList_fixed (cleanList_inv s.data))

/-! ### RegionExtractor (`camera_service.py`, `CameraService.extract_roi`) -/

/-- A frame's shape: `frame.shape[:2] = (height, width)`. -/
structure FrameDims where
  height : Nat
  width : Nat
deriving DecidableEq, Repr

/-- The rectangle actually selected by the numpy slice
`frame[y:y+h, x:x+w]`. -/
structure Roi where
  x : Nat
  y : Nat
  w : Nat
  h : Nat
deriving DecidableEq, Repr

/-- Python slice-stop normalisation for step 1: a negative stop counts from
the end, then the stop is clamped into `[0, len]`. -/
def pySliceStop (stop len : Int) : Int :=
  let s := if stop < 0 then stop + len else stop
  max 0 (min s len)

/-- `CameraService.extract_roi(frame, x, y, w, h)`: clamp `x`/`y` into the
frame, clamp `w`/`h` so the rectangle cannot exceed it, then take the numpy
slice `frame[y:y+h, x:x+w]` (which never raises; an empty slice gives a
zero-area region). `none` is returned only for a missing frame. -/
def extract_roi (frame : Option FrameDims) (x y w h : Int) : Option Roi :=
  match frame with
  | none => none
  | some f =>
    let W : Int := f.width
    let H : Int := f.height
    let x := max 0 (min x (W - 1))
    let y := max 0 (min y (H - 1))
    let w := min w (W - x)
    let h := min h (H - y)
    let x2 := pySliceStop (x + w) W
    let y2 := pySliceStop (y + h) H
    some ⟨x.toNat, y.toNat, (x2 - x).toNat, (y2 - y).toNat⟩

/-- C6 (amended): for every present frame and every requested rectangle,
`extract_roi` returns a region (never `none`, never an error) whose
rectangle lies entirely within the frame bounds; a degenerate clamped
rectangle yields an empty region, not `none`. -/
theorem extract_roi_within_bounds (f : FrameDims) (x y w h : Int) :
    ∃ r : Roi, extract_roi (some f) x y w h = some r ∧
      r.x + r.w ≤ f.width ∧ r.y + r.h ≤ f.height := by
  refine ⟨_, rfl, ?_, ?_⟩ <;>
    · dsimp only [extract_roi, pySliceStop]
      omega

/-- C6 counterexample: a zero-area request on a 10×10 frame returns an
empty region, not `none` — the claim "degenerate input yields none" fails
on the code. -/
theorem extract_roi_zero_area_counterexample :
    extract_roi (some ⟨10, 10⟩) 5 5 0 0 = some ⟨5, 5, 0, 0⟩ ∧
    extract_roi (some ⟨10, 10⟩) 5 5 0 0 ≠ none := by
  constructor
  · decide
  · decide

/-! ### ReadingRecognizer (`ocr_service.py`) -/

/-- Outcome of the external EasyOCR `readtext` call: either a list of
`(text, confidence)` candidates or a raised exception. -/
inductive OcrOutcome where
  | results (rs : List (String × ℚ))
  | exn
deriving Repr

/-- Python `max(results, key=lambda x: x[2])`: first candidate of maximal
confidence. -/
def maxByConf (head : String × ℚ) (tail : List (String × ℚ)) : String × ℚ :=
  tail.foldl (fun b x => if b.2 < x.2 then x else b) head

/-- `OCRService.extract_text_easyocr`: returns the cleaned best-candidate
text with its engine confidence, or `("", 0.0)` when the reader is missing,
the engine yields nothing, or any exception is raised.  (Image
preprocessing only changes the pixels handed to the engine; its effect is
inside `OcrOutcome`.) -/
def extract_text_easyocr (readerSome : Bool) (o : OcrOutcome) : String × ℚ :=
  if !readerSome then ("", 0)
  else
    match o with
    | .exn => ("", 0)
    | .results [] => ("", 0)
    | .results (r :: rs) =>
      let best := maxByConf r rs
      (_clean_numeric_text best.1, best.2)

/-- `OCRService.extract_numeric_value`: confidence-gate the recognised text
and parse it as a float (`parse` stands for Python's `float`; a `ValueError`
is `none`). -/
def extract_numeric_value (imgEmpty readerSome : Bool) (o : OcrOutcome)
    (threshold : ℚ) (parse : String → Option ℚ) : Option ℚ × ℚ :=
  if imgEmpty then (none, 0)
  else if (extract_text_easyocr readerSome o).1 != "" &&
      decide (threshold ≤ (extract_text_easyocr readerSome o).2) then
    match parse (extract_text_easyocr readerSome o).1 with
    | some v => (some v, (extract_text_easyocr readerSome o).2)
    | none => (none, (extract_text_easyocr readerSome o).2)
  else (none, (extract_text_easyocr readerSome o).2)

/-- C8: `extract_numeric_value` returns `none` together with the
engine-reported confidence whenever that confidence is below the threshold
or the cleaned text fails to parse; an engine exception degrades the result
to `(none, 0)`, and a missing/empty region yields `(none, 0)` — no
exception ever escapes. -/
theorem extract_numeric_value_gate (imgEmpty readerSome : Bool)
    (o : OcrOutcome) (threshold : ℚ) (parse : String → Option ℚ) :
    ((extract_numeric_value imgEmpty readerSome o threshold parse).2 < threshold →
      (extract_numeric_value imgEmpty readerSome o threshold parse).1 = none) ∧
    (imgEmpty = false →
      parse (extract_text_easyocr readerSome o).1 = none →
      extract_numeric_value imgEmpty readerSome o threshold parse =
        (none, (extract_text_easyocr readerSome o).2)) ∧
    (imgEmpty = false →
      (extract_text_easyocr readerSome o).2 < threshold →
      extract_numeric_value imgEmpty readerSome o threshold parse =
        (none, (extract_text_easyocr readerSome o).2)) ∧
    (imgEmpty = false → o = OcrOutcome.exn →
      extract_numeric_value imgEmpty readerSome o threshold parse = (none, 0)) ∧
    (imgEmpty = true →
      extract_numeric_value imgEmpty readerSome o threshold parse = (none, 0)) := by
  refine ⟨?_, ?_, ?_, ?_, ?_⟩
  · intro hlt
    unfold extract_numeric_value at hlt ⊢
    split at hlt
    next himg => rw [if_pos himg]
    next himg =>
      rw [if_neg himg]
      split at hlt
      next hgate =>
        rw [if_pos hgate]
        rw [Bool.and_eq_true, decide_eq_true_eq] at hgate
        split at hlt
        next v hv => exact absurd hlt (not_lt.mpr hgate.2)
        next hv => rfl
      next hgate => rw [if_neg hgate]
  · intro himg hparse
    subst himg
    unfold extract_numeric_value
    rw [if_neg (by simp)]
    split
    next hgate => rw [hparse]
    next hgate => rfl
  · intro himg hlt
    subst himg
    unfold extract_numeric_value
    have hng : ¬(((extract_text_easyocr readerSome o).1 != "" &&
        decide (threshold ≤ (extract_text_easyocr readerSome o).2)) = true) := by
      rw [Bool.and_eq_true, decide_eq_true_eq]
      rintro ⟨-, hc⟩
      exact absurd hlt (not_lt.mpr hc)
    rw [if_neg (by simp), if_neg hng]
  · intro himg ho
    subst ho himg
    cases readerSome <;> rfl
  · intro himg
    subst himg
    rfl

/-- C8 witness: a concrete candidate "12" at confidence 1/2 against
threshold 3/4 is gated to `(none, 1/2)`. -/
theorem extract_numeric_value_gate_witness :
    extract_numeric_value false true (.results [("12", 1/2)]) (3/4)
      (fun _ => some 12) = (none, 1/2) :=
  (extract_numeric_value_gate false true (.results [("12", 1/2)]) (3/4)
    (fun _ => some 12)).2.2.1 rfl (by norm_num [extract_text_easyocr, maxByConf])

/-! ### HardwareLink result tokens (`main_desktop_app.py`, `send_HW_result`) -/

/-- `send_HW_result(result_type)`: the exact byte strings written to the
serial port, in order.  `connected` models
`self.HW_serial and self.HW_serial.is_open`; on a disconnected link nothing
is written and the guard means no exception is raised. -/
def send_HW_result (connected : Bool) (result_type : String) : List String :=
  if connected then
    if result_type = "PASS" then ["OK\n", "DECLAMP\n"]
    else if result_type = "FAIL" then ["FAIL\n", "DECLAMP\n"]
    else if result_type = "NO_FRAME" then ["NO_FRAME\n"]
    else []
  else []

/-- C9: on an open link PASS writes `OK`, `DECLAMP`; FAIL writes `FAIL`,
`DECLAMP`; NO_FRAME writes `NO_FRAME` alone; on a disconnected link nothing
at all is written. -/
theorem send_HW_result_tokens :
    send_HW_result true "PASS" = ["OK\n", "DECLAMP\n"] ∧
    send_HW_result true "FAIL" = ["FAIL\n", "DECLAMP\n"] ∧
    send_HW_result true "NO_FRAME" = ["NO_FRAME\n"] ∧
    ∀ result_type : String, send_HW_result false result_type = [] := by
  refine ⟨by decide, by decide, by decide, fun result_type => rfl⟩

/-! ### LabelPrinter (`qr_utils.py`) and the capture cycle
(`main_desktop_app.py`, `capture_reading`) -/

/-- A row of the `parts` table (`app/core/database.py`): optional per-slot
bounds. -/
structure PartLimits where
  part_code : String
  part_name : String
  angle1_min : Option ℚ
  angle1_max : Option ℚ
  angle2_min : Option ℚ
  angle2_max : Option ℚ
  weight1_min : Option ℚ
  weight1_max : Option ℚ
  weight2_min : Option ℚ
  weight2_max : Option ℚ
deriving DecidableEq, Repr

/-- The record handed to `data_service.create_reading`
(`BalanceReadingCreate`). -/
structure BalanceReadingCreate where
  angle1 : Option ℚ
  weight1 : Option ℚ
  angle2 : Option ℚ
  weight2 : Option ℚ
  is_valid : Bool
  processing_error : Option String
  part_name : Option String
deriving DecidableEq, Repr

/-- `f"{x:.2f}" if x is not None else "N/A"` with `fmt` standing for the
fixed-precision rendering. -/
def fmtOrNA (fmt : ℚ → String) (v : Option ℚ) : String :=
  match v with
  | some x => fmt x
  | none => "N/A"

/-- The `qr_data` string of `print_balance_readings`:
`f"{qr_value};{angle1_str};{weight1_str};{angle2_str};{weight2_str}"` with
`qr_value = serial + part_code`. -/
def labelPayload (sp : String × String) (angle1 weight1 angle2 weight2 : Option ℚ)
    (fmt2 fmt3 : ℚ → String) : String :=
  sp.1 ++ sp.2 ++ ";" ++ fmtOrNA fmt2 angle1 ++ ";" ++ fmtOrNA fmt3 weight1 ++ ";" ++
    fmtOrNA fmt2 angle2 ++ ";" ++ fmtOrNA fmt3 weight2

/-- `generate_zpl_data_print(qr_data)`: the ZPL command with the payload
embedded after `^FDLA,`. -/
def generate_zpl_data_print (qr_data : String) : String :=
  "\n^XA\n^MD20\n^PW400\n^LL300\n^FO180,60^BQN,2,2\n^FDLA," ++ qr_data ++
    "^FS\n^PQ1,0,1,Y\n^XZ\n"

/-- The `qr_data` that `save_qr_image(qr_value, angle1, weight1, angle2,
weight2)` encodes into the saved image file. -/
def save_qr_image_data (qr_value angle1 weight1 angle2 weight2 : String) : String :=
  qr_value ++ ";" ++ angle1 ++ ";" ++ weight1 ++ ";" ++ angle2 ++ ";" ++ weight2

/-- External outcomes of one `print_balance_readings` call: the printer
transport (`print_zpl`), the image save (`save_qr_image`), and the
catch-all exception handler. -/
structure PrintEnv where
  printOk : Bool
  saveOk : Bool
  exn : Bool
deriving DecidableEq, Repr

/-- What one `print_balance_readings` call produces: its returned triple
`(success, qr_value, qr_image_path)` plus the resulting persisted sequencer
state, the ZPL command handed to `print_zpl` and the data encoded in the
saved image. -/
structure PrintResult where
  success : Bool
  qr_value : String
  qr_image_path : String
  newState : SequencerState
  zplCommand : Option String
  imagePayload : Option String
deriving DecidableEq, Repr

/-- `print_balance_readings(part, angle1, weight1, angle2, weight2)`: peek
the serial, build `qr_data`, print the ZPL, save the QR image, and — only
when the physical print succeeded — commit the serial via
`increment_serial` before returning.  The `exn` branch is the outer
`except` returning `(False, "", "")`. -/
def print_balance_readings (st : SequencerState) (month_now : String)
    (part : Option String) (angle1 weight1 angle2 weight2 : Option ℚ)
    (fmt2 fmt3 : ℚ → String) (env : PrintEnv) : PrintResult :=
  if env.exn then ⟨false, "", "", st, none, none⟩
  else
    ⟨env.printOk,
     (get_current_serial_and_part st month_now part).1 ++
       (get_current_serial_and_part st month_now part).2,
     if env.saveOk then "current_qr.png" else "",
     if env.printOk then increment_serial st month_now part else st,
     some (generate_zpl_data_print
       (labelPayload (get_current_serial_and_part st month_now part)
         angle1 weight1 angle2 weight2 fmt2 fmt3)),
     if env.saveOk then
       some (save_qr_image_data
         ((get_current_serial_and_part st month_now part).1 ++
           (get_current_serial_and_part st month_now part).2)
         (fmtOrNA fmt2 angle1) (fmtOrNA fmt3 weight1)
         (fmtOrNA fmt2 angle2) (fmtOrNA fmt3 weight2))
     else none⟩

/-- Terminal outcome of one `capture_reading` run. -/
inductive Outcome where
  | NoFrame
  | NoPartSelected
  | PartNotFound
  | Invalid
  | PrintFailed
  | ScanFailed
  | DbError
  | Committed
  | SystemError
deriving DecidableEq, Repr

/-- Everything a single capture cycle run observable from outside: terminal
outcome, serial-port writes in order, final persisted sequencer state, the
database record created (if any), the missing/limit failure lists, and the
three payload-carrying strings of the print/scan stage. -/
structure CycleResult where
  outcome : Outcome
  hwWrites : List String
  seqState : SequencerState
  persisted : Option BalanceReadingCreate
  missing : List String
  limitsFailed : List String
  zplCommand : Option String
  imagePayload : Option String
  expectedScan : Option String
deriving DecidableEq, Repr

/-- The environment one `capture_reading` run interacts with: the cached
frame, the four OCR readings (value, confidence), the selected part and its
database row, the serial link, the print stage, the scan dialog outcome
(`dialog accepted and dialog.success`), and the database commit outcome. -/
structure CycleEnv where
  frame : Option FrameDims
  angle1 : Option ℚ × ℚ
  weight1 : Option ℚ × ℚ
  angle2 : Option ℚ × ℚ
  weight2 : Option ℚ × ℚ
  current_part : Option String
  dbPart : Option PartLimits
  connected : Bool
  printEnv : PrintEnv
  scanOk : Bool
  dbOk : Bool
  month_now : String
  fmt2 : ℚ → String
  fmt3 : ℚ → String

/-- Python truthiness of `self.current_part` (None and "" are falsy). -/
def pyTruthyStrOpt (s : Option String) : Bool :=
  match s with
  | none => false
  | some v => v != ""

/-- The `missing` list: slot names with no recognised value, in the loop
order `angle1, weight1, angle2, weight2`. -/
def missingSlots (env : CycleEnv) : List String :=
  (if env.angle1.1.isNone then ["angle1"] else []) ++
  (if env.weight1.1.isNone then ["weight1"] else []) ++
  (if env.angle2.1.isNone then ["angle2"] else []) ++
  (if env.weight2.1.isNone then ["weight2"] else [])

/-- One weight slot's contribution to `limits_failed`: the min check then
the max check, skipped entirely when the value is missing. -/
def checkWeightLimit (name : String) (value minv maxv : Option ℚ) : List String :=
  match value with
  | none => []
  | some v =>
    (match minv with
     | some m => if v < m then [name ++ " too low"] else []
     | none => []) ++
    (match maxv with
     | some m => if m < v then [name ++ " too high"] else []
     | none => [])

/-- `limits_failed` after the weight-only validation loop (angles are not
validated). -/
def weightLimitsFailed (env : CycleEnv) (p : PartLimits) : List String :=
  checkWeightLimit "weight1" env.weight1.1 p.weight1_min p.weight1_max ++
  checkWeightLimit "weight2" env.weight2.1 p.weight2_min p.weight2_max

/-- `part=self.current_part or "Unknown"`, the argument `capture_reading`
passes to `print_balance_readings`. -/
def partArgFor (cp : Option String) : Option String :=
  some (pyOrStr (cp.getD "") "Unknown")

/-- The `print_balance_readings` call made by `capture_reading`. -/
def printCallOf (env : CycleEnv) (st : SequencerState) : PrintResult :=
  print_balance_readings st env.month_now (partArgFor env.current_part)
    env.angle1.1 env.weight1.1 env.angle2.1 env.weight2.1 env.fmt2 env.fmt3 env.printEnv

/-- The `expected` string `capture_reading` compares the operator scan
against, built from its own serial peek and unguarded `:.2f`/`:.3f`
formatting of the four values. -/
def expectedScanString (env : CycleEnv) (st : SequencerState) (a1 w1 a2 w2 : ℚ) : String :=
  (get_current_serial_and_part st env.month_now env.current_part).1 ++
    (get_current_serial_and_part st env.month_now env.current_part).2 ++ ";" ++
    env.fmt2 a1 ++ ";" ++ env.fmt3 w1 ++ ";" ++ env.fmt2 a2 ++ ";" ++ env.fmt3 w2

/-- The tail of `capture_reading` from the `is_valid` test on: invalid →
send FAIL and stop with nothing consumed; valid → peek, print (committing
the serial inside `print_balance_readings` when the print succeeds), then
require the operator scan before persisting and sending PASS.  On a failed
print nothing further is sent and the scan dialog never opens; on a failed
scan nothing is persisted.  The `SystemError` arm is the outer exception
handler catching the `TypeError` of formatting a missing value — it is
unreachable because the valid branch requires `missing = []`. -/
def cycleAfterValidation (env : CycleEnv) (st : SequencerState)
    (missing limits_failed : List String) (part_obj : Option PartLimits) : CycleResult :=
  if missing.isEmpty && limits_failed.isEmpty then
    if (printCallOf env st).success then
      match env.angle1.1, env.weight1.1, env.angle2.1, env.weight2.1 with
      | some a1, some w1, some a2, some w2 =>
        if env.scanOk then
          if env.dbOk then
            ⟨.Committed, send_HW_result env.connected "PASS", (printCallOf env st).newState,
             some ⟨some a1, some w1, some a2, some w2, true, none,
               part_obj.map PartLimits.part_name⟩,
             missing, limits_failed, (printCallOf env st).zplCommand,
             (printCallOf env st).imagePayload,
             some (expectedScanString env st a1 w1 a2 w2)⟩
          else
            ⟨.DbError, send_HW_result env.connected "FAIL", (printCallOf env st).newState,
             none, missing, limits_failed, (printCallOf env st).zplCommand,
             (printCallOf env st).imagePayload,
             some (expectedScanString env st a1 w1 a2 w2)⟩
        else
          ⟨.ScanFailed, [], (printCallOf env st).newState, none, missing, limits_failed,
           (printCallOf env st).zplCommand, (printCallOf env st).imagePayload,
           some (expectedScanString env st a1 w1 a2 w2)⟩
      | _, _, _, _ =>
        ⟨.SystemError, [], (printCallOf env st).newState, none, missing, limits_failed,
         (printCallOf env st).zplCommand, (printCallOf env st).imagePayload, none⟩
    else
      ⟨.PrintFailed, [], (printCallOf env st).newState, none, missing, limits_failed,
       (printCallOf env st).zplCommand, (printCallOf env st).imagePayload, none⟩
  else
    ⟨.Invalid, send_HW_result env.connected "FAIL", st, none, missing, limits_failed,
     none, none, none⟩

/-- `capture_reading`: the full capture cycle.  No frame → NO_FRAME; then
the missing check and the weight-only limit validation (aborting with no
serial write at all when no part is selected or the part is not in the
database); then the tail above. -/
def capture_reading (env : CycleEnv) (st : SequencerState) : CycleResult :=
  match env.frame with
  | none =>
    ⟨.NoFrame, send_HW_result env.connected "NO_FRAME", st, none, [], [],
     none, none, none⟩
  | some _ =>
    if (missingSlots env).isEmpty && pyTruthyStrOpt env.current_part then
      match env.dbPart with
      | some p =>
        cycleAfterValidation env st (missingSlots env) (weightLimitsFailed env p) (some p)
      | none =>
        ⟨.PartNotFound, [], st, none, missingSlots env, [], none, none, none⟩
    else if !pyTruthyStrOpt env.current_part then
      ⟨.NoPartSelected, [], st, none, missingSlots env, [], none, none, none⟩
    else
      cycleAfterValidation env st (missingSlots env) [] none

/-! ### Capture-cycle theorems -/

/-- With all four slots recognised, the `missing` list is empty. -/
theorem missingSlots_nil {env : CycleEnv} {a1 w1 a2 w2 : ℚ}
    (h1 : env.angle1.1 = some a1) (h2 : env.weight1.1 = some w1)
    (h3 : env.angle2.1 = some a2) (h4 : env.weight2.1 = some w2) :
    missingSlots env = [] := by
  simp [missingSlots, h1, h2, h3, h4]

/-- For a truthy selected part, `self.current_part or "Unknown"` is just the
selected part. -/
theorem partArgFor_eq {cp : Option String} (hp : pyTruthyStrOpt cp = true) :
    partArgFor cp = cp := by
  match cp with
  | none => simp [pyTruthyStrOpt] at hp
  | some v =>
    simp only [pyTruthyStrOpt, bne_iff_ne, ne_eq, decide_eq_true_eq] at hp
    simp [partArgFor, pyOrStr, hp]

/-- On the fully-valid path (frame present, all slots recognised, part
selected and found, no limit failure) the cycle reduces to its
post-validation tail. -/
theorem capture_reading_valid_eq (env : CycleEnv) (st : SequencerState)
    (f : FrameDims) (p : PartLimits) (a1 w1 a2 w2 : ℚ)
    (hf : env.frame = some f)
    (h1 : env.angle1.1 = some a1) (h2 : env.weight1.1 = some w1)
    (h3 : env.angle2.1 = some a2) (h4 : env.weight2.1 = some w2)
    (hp : pyTruthyStrOpt env.current_part = true)
    (hdb : env.dbPart = some p)
    (hlim : weightLimitsFailed env p = []) :
    capture_reading env st = cycleAfterValidation env st [] [] (some p) := by
  simp [capture_reading, hf, missingSlots_nil h1 h2 h3 h4, hdb, hp, hlim]

/-- Without the outer exception, the print call reports the transport
outcome, commits the serial exactly when the print succeeded, and carries
the shared payload to both the ZPL command and the saved image. -/
theorem printCallOf_eval (env : CycleEnv) (st : SequencerState)
    (hexn : env.printEnv.exn = false) :
    printCallOf env st =
      ⟨env.printEnv.printOk,
       (get_current_serial_and_part st env.month_now (partArgFor env.current_part)).1 ++
         (get_current_serial_and_part st env.month_now (partArgFor env.current_part)).2,
       if env.printEnv.saveOk then "current_qr.png" else "",
       if env.printEnv.printOk then
         increment_serial st env.month_now (partArgFor env.current_part)
       else st,
       some (generate_zpl_data_print
         (labelPayload (get_current_serial_and_part st env.month_now (partArgFor env.current_part))
           env.angle1.1 env.weight1.1 env.angle2.1 env.weight2.1 env.fmt2 env.fmt3)),
       if env.printEnv.saveOk then
         some (labelPayload (get_current_serial_and_part st env.month_now (partArgFor env.current_part))
           env.angle1.1 env.weight1.1 env.angle2.1 env.weight2.1 env.fmt2 env.fmt3)
       else none⟩ := by
  simp [printCallOf, print_balance_readings, hexn, save_qr_image_data, labelPayload]

/-- C5: a recognised weight above its configured maximum ends the cycle in
`Invalid` with a "weight1 too high" failure entry, sends FAIL (and DECLAMP)
to the open hardware link, leaves the persisted sequencer state untouched,
and persists no reading. -/
theorem invalid_weight_rejects (env : CycleEnv) (st : SequencerState)
    (f : FrameDims) (p : PartLimits) (a1 w1 a2 w2 mx : ℚ)
    (hf : env.frame = some f)
    (h1 : env.angle1.1 = some a1) (h2 : env.weight1.1 = some w1)
    (h3 : env.angle2.1 = some a2) (h4 : env.weight2.1 = some w2)
    (hp : pyTruthyStrOpt env.current_part = true)
    (hdb : env.dbPart = some p)
    (hmx : p.weight1_max = some mx) (hgt : mx < w1)
    (hconn : env.connected = true) :
    (capture_reading env st).outcome = Outcome.Invalid ∧
    "weight1 too high" ∈ (capture_reading env st).limitsFailed ∧
    (capture_reading env st).hwWrites = ["FAIL\n", "DECLAMP\n"] ∧
    (capture_reading env st).seqState = st ∧
    (capture_reading env st).persisted = none := by
  have hmem : "weight1 too high" ∈ weightLimitsFailed env p := by
    unfold weightLimitsFailed checkWeightLimit
    rw [h2, hmx]
    simp [hgt]
  have hne : (weightLimitsFailed env p).isEmpty = false := by
    cases hq : weightLimitsFailed env p with
    | nil => rw [hq] at hmem; simp at hmem
    | cons a t => rfl
  have hcr : capture_reading env st =
      ⟨Outcome.Invalid, send_HW_result env.connected "FAIL", st, none, [],
       weightLimitsFailed env p, none, none, none⟩ := by
    simp [capture_reading, cycleAfterValidation, hf,
      missingSlots_nil h1 h2 h3 h4, hdb, hp, hne]
  rw [hcr]
  exact ⟨rfl, hmem, by rw [hconn]; rfl, rfl, rfl⟩

/-- A concrete cycle environment used to instantiate the cycle theorems:
frame present, four recognised readings, part "P7" present in the database
with an optional weight1 maximum, hardware link open, database save
succeeding. -/
def mkCycleEnv (pe : PrintEnv) (scanOk : Bool) (w1val : ℚ) (w1max : Option ℚ) : CycleEnv :=
  ⟨some ⟨480, 640⟩, (some 10, 9/10), (some w1val, 9/10), (some 20, 9/10), (some 2, 9/10),
   some "P7", some ⟨"P7", "Bracket", none, none, none, none, none, w1max, none, none⟩,
   true, pe, scanOk, true, "0625", fun _ => "A", fun _ => "B"⟩

/-- C5 witness: weight1 = 5.2 against a 4.5 maximum is rejected exactly as
the theorem states. -/
theorem invalid_weight_rejects_witness :
    (capture_reading (mkCycleEnv ⟨true, true, false⟩ false (26/5) (some (9/2))) ⟨"0625", 5, "X"⟩).outcome = Outcome.Invalid ∧
    "weight1 too high" ∈ (capture_reading (mkCycleEnv ⟨true, true, false⟩ false (26/5) (some (9/2))) ⟨"0625", 5, "X"⟩).limitsFailed ∧
    (capture_reading (mkCycleEnv ⟨true, true, false⟩ false (26/5) (some (9/2))) ⟨"0625", 5, "X"⟩).hwWrites = ["FAIL\n", "DECLAMP\n"] ∧
    (capture_reading (mkCycleEnv ⟨true, true, false⟩ false (26/5) (some (9/2))) ⟨"0625", 5, "X"⟩).seqState = ⟨"0625", 5, "X"⟩ ∧
    (capture_reading (mkCycleEnv ⟨true, true, false⟩ false (26/5) (some (9/2))) ⟨"0625", 5, "X"⟩).persisted = none :=
  invalid_weight_rejects _ _ ⟨480, 640⟩ _ 10 (26/5) 20 2 (9/2)
    rfl rfl rfl rfl rfl (by decide) rfl rfl (by norm_num) rfl

/-- C1 (amended): when the print succeeds and the operator scan mismatches
until timeout, the cycle ends in `ScanFailed`, persists no reading to the
database and writes nothing further to the hardware link — but the
persisted `SequencerState` has already been committed when the print
succeeded: it advances to the incremented serial, so the serial IS
consumed. -/
theorem scan_failure_after_print (env : CycleEnv) (st : SequencerState)
    (f : FrameDims) (p : PartLimits) (a1 w1 a2 w2 : ℚ)
    (hf : env.frame = some f)
    (h1 : env.angle1.1 = some a1) (h2 : env.weight1.1 = some w1)
    (h3 : env.angle2.1 = some a2) (h4 : env.weight2.1 = some w2)
    (hp : pyTruthyStrOpt env.current_part = true)
    (hdb : env.dbPart = some p)
    (hlim : weightLimitsFailed env p = [])
    (hexn : env.printEnv.exn = false)
    (hprint : env.printEnv.printOk = true)
    (hscan : env.scanOk = false) :
    (capture_reading env st).outcome = Outcome.ScanFailed ∧
    (capture_reading env st).persisted = none ∧
    (capture_reading env st).hwWrites = [] ∧
    (capture_reading env st).seqState =
      increment_serial st env.month_now env.current_part := by
  rw [capture_reading_valid_eq env st f p a1 w1 a2 w2 hf h1 h2 h3 h4 hp hdb hlim]
  simp only [cycleAfterValidation, printCallOf_eval env st hexn, hprint,
    h1, h2, h3, h4, hscan, partArgFor_eq hp]
  simp

/-- C1 counterexample: a concrete cycle where the print succeeds and the
scan fails ends in `ScanFailed` with nothing persisted — yet the sequencer
state has changed (serial 5 became 6): the claim's "SequencerState
unchanged / serial not consumed" is false on the code. -/
theorem scan_failure_consumes_serial_counterexample :
    (capture_reading (mkCycleEnv ⟨true, true, false⟩ false 2 none) ⟨"0625", 5, "X"⟩).outcome = Outcome.ScanFailed ∧
    (capture_reading (mkCycleEnv ⟨true, true, false⟩ false 2 none) ⟨"0625", 5, "X"⟩).persisted = none ∧
    (capture_reading (mkCycleEnv ⟨true, true, false⟩ false 2 none) ⟨"0625", 5, "X"⟩).seqState = ⟨"0625", 6, "P7"⟩ ∧
    (capture_reading (mkCycleEnv ⟨true, true, false⟩ false 2 none) ⟨"0625", 5, "X"⟩).seqState ≠ ⟨"0625", 5, "X"⟩ := by
  refine ⟨?_, ?_, ?_, ?_⟩ <;> decide

/-- C1 witness for the amended theorem: the same concrete cycle, obtained
by instantiating the theorem. -/
theorem scan_failure_after_print_witness :
    (capture_reading (mkCycleEnv ⟨true, true, false⟩ false 2 none) ⟨"0625", 5, "X"⟩).outcome = Outcome.ScanFailed ∧
    (capture_reading (mkCycleEnv ⟨true, true, false⟩ false 2 none) ⟨"0625", 5, "X"⟩).persisted = none ∧
    (capture_reading (mkCycleEnv ⟨true, true, false⟩ false 2 none) ⟨"0625", 5, "X"⟩).hwWrites = [] ∧
    (capture_reading (mkCycleEnv ⟨true, true, false⟩ false 2 none) ⟨"0625", 5, "X"⟩).seqState =
      increment_serial ⟨"0625", 5, "X"⟩ "0625" (some "P7") :=
  scan_failure_after_print _ _ ⟨480, 640⟩ _ 10 2 20 2
    rfl rfl rfl rfl rfl (by decide) rfl rfl rfl rfl rfl

/-- C4 (amended): once the valid path reaches printing, the cycle ends in
`PrintFailed` exactly when the physical print failed — regardless of the
archive save — and on that failure nothing at all (no FAIL) is written to
the hardware link and the scan confirmation step is never opened; the scan
step is reached exactly when the physical print succeeded. -/
theorem print_failure_behavior (env : CycleEnv) (st : SequencerState)
    (f : FrameDims) (p : PartLimits) (a1 w1 a2 w2 : ℚ)
    (hf : env.frame = some f)
    (h1 : env.angle1.1 = some a1) (h2 : env.weight1.1 = some w1)
    (h3 : env.angle2.1 = some a2) (h4 : env.weight2.1 = some w2)
    (hp : pyTruthyStrOpt env.current_part = true)
    (hdb : env.dbPart = some p)
    (hlim : weightLimitsFailed env p = [])
    (hexn : env.printEnv.exn = false) :
    (env.printEnv.printOk = false →
      (capture_reading env st).outcome = Outcome.PrintFailed ∧
      (capture_reading env st).hwWrites = [] ∧
      (capture_reading env st).expectedScan = none ∧
      (capture_reading env st).seqState = st) ∧
    (env.printEnv.printOk = true →
      (capture_reading env st).outcome ≠ Outcome.PrintFailed ∧
      (capture_reading env st).expectedScan ≠ none) := by
  rw [capture_reading_valid_eq env st f p a1 w1 a2 w2 hf h1 h2 h3 h4 hp hdb hlim]
  constructor
  · intro hprint
    simp only [cycleAfterValidation, printCallOf_eval env st hexn, hprint]
    simp
  · intro hprint
    simp only [cycleAfterValidation, printCallOf_eval env st hexn, hprint,
      h1, h2, h3, h4]
    cases hscan : env.scanOk <;> cases hdbok : env.dbOk <;> simp

/-- C4 counterexample: a concrete cycle where the archive save succeeded
(the image payload exists) but the physical print failed ends in
`PrintFailed`, writes nothing to the hardware link (no FAIL), and never
opens the scan step — the claim's "PrintFailed only when both failed, send
FAIL, otherwise continue to AwaitingScan" is false on the code. -/
theorem print_failure_counterexample :
    (capture_reading (mkCycleEnv ⟨false, true, false⟩ true 2 none) ⟨"0625", 5, "X"⟩).outcome = Outcome.PrintFailed ∧
    (capture_reading (mkCycleEnv ⟨false, true, false⟩ true 2 none) ⟨"0625", 5, "X"⟩).hwWrites = [] ∧
    (capture_reading (mkCycleEnv ⟨false, true, false⟩ true 2 none) ⟨"0625", 5, "X"⟩).expectedScan = none ∧
    (capture_reading (mkCycleEnv ⟨false, true, false⟩ true 2 none) ⟨"0625", 5, "X"⟩).imagePayload ≠ none := by
  refine ⟨?_, ?_, ?_, ?_⟩ <;> decide

/-- C4 witness for the amended theorem: instantiating it at a failed print
with a successful archive save. -/
theorem print_failure_behavior_witness :
    (capture_reading (mkCycleEnv ⟨false, true, false⟩ true 2 none) ⟨"0625", 5, "X"⟩).outcome = Outcome.PrintFailed ∧
    (capture_reading (mkCycleEnv ⟨false, true, false⟩ true 2 none) ⟨"0625", 5, "X"⟩).hwWrites = [] ∧
    (capture_reading (mkCycleEnv ⟨false, true, false⟩ true 2 none) ⟨"0625", 5, "X"⟩).expectedScan = none ∧
    (capture_reading (mkCycleEnv ⟨false, true, false⟩ true 2 none) ⟨"0625", 5, "X"⟩).seqState = ⟨"0625", 5, "X"⟩ :=
  (print_failure_behavior (mkCycleEnv ⟨false, true, false⟩ true 2 none)
    ⟨"0625", 5, "X"⟩ ⟨480, 640⟩
    ⟨"P7", "Bracket", none, none, none, none, none, none, none, none⟩ 10 2 20 2
    rfl rfl rfl rfl rfl (by decide) rfl rfl rfl).1 rfl

/-- C3: in any cycle that prints and opens the scan step, the payload
embedded in the ZPL command sent to the printer, the data encoded into the
saved QR image, and the expected value compared against the operator scan
are all the same string
`{serial}{partCode};{angle1};{weight1};{angle2};{weight2}` (with the
shared fixed-precision formatters and "N/A" for a missing value on the
print side). -/
theorem label_payload_identity (env : CycleEnv) (st : SequencerState)
    (f : FrameDims) (p : PartLimits) (a1 w1 a2 w2 : ℚ)
    (hf : env.frame = some f)
    (h1 : env.angle1.1 = some a1) (h2 : env.weight1.1 = some w1)
    (h3 : env.angle2.1 = some a2) (h4 : env.weight2.1 = some w2)
    (hp : pyTruthyStrOpt env.current_part = true)
    (hdb : env.dbPart = some p)
    (hlim : weightLimitsFailed env p = [])
    (hexn : env.printEnv.exn = false)
    (hprint : env.printEnv.printOk = true)
    (hsave : env.printEnv.saveOk = true) :
    (capture_reading env st).zplCommand =
      some (generate_zpl_data_print
        (labelPayload (get_current_serial_and_part st env.month_now env.current_part)
          (some a1) (some w1) (some a2) (some w2) env.fmt2 env.fmt3)) ∧
    (capture_reading env st).imagePayload =
      some (labelPayload (get_current_serial_and_part st env.month_now env.current_part)
        (some a1) (some w1) (some a2) (some w2) env.fmt2 env.fmt3) ∧
    (capture_reading env st).expectedScan =
      some (labelPayload (get_current_serial_and_part st env.month_now env.current_part)
        (some a1) (some w1) (some a2) (some w2) env.fmt2 env.fmt3) := by
  rw [capture_reading_valid_eq env st f p a1 w1 a2 w2 hf h1 h2 h3 h4 hp hdb hlim]
  simp only [cycleAfterValidation, printCallOf_eval env st hexn, hprint,
    h1, h2, h3, h4, hsave, partArgFor_eq hp]
  cases hsc : env.scanOk <;> cases hdbok : env.dbOk <;>
    simp [expectedScanString, labelPayload, fmtOrNA]

/-- C3 witness: a concrete cycle in which all three stage strings evaluate
to the very same payload literal. -/
theorem label_payload_identity_witness :
    (capture_reading (mkCycleEnv ⟨true, true, false⟩ true 2 none) ⟨"0625", 5, "X"⟩).zplCommand =
      some (generate_zpl_data_print "00005P7;A;B;A;B") ∧
    (capture_reading (mkCycleEnv ⟨true, true, false⟩ true 2 none) ⟨"0625", 5, "X"⟩).imagePayload =
      some "00005P7;A;B;A;B" ∧
    (capture_reading (mkCycleEnv ⟨true, true, false⟩ true 2 none) ⟨"0625", 5, "X"⟩).expectedScan =
      some "00005P7;A;B;A;B" := by
  obtain ⟨hz, hi, he⟩ := label_payload_identity
    (mkCycleEnv ⟨true, true, false⟩ true 2 none) ⟨"0625", 5, "X"⟩ ⟨480, 640⟩
    ⟨"P7", "Bracket", none, none, none, none, none, none, none, none⟩ 10 2 20 2
    rfl rfl rfl rfl rfl (by decide) rfl rfl rfl rfl rfl
  refine ⟨?_, ?_, ?_⟩
  · rw [hz]; decide
  · rw [hi]; decide
  · rw [he]; decide
